import Mathlib

/-!
Shallow embedding of the chainlink VRF delegate slice:
`ServicesForSpec`, `GetStartingResponseCountsV1`, `GetStartingResponseCountsV2`
and `getRespCounts` (package `vrf`), and the plain/context service adapter
(`core/services/service.go`).  Go strings are `List Char`, bytes are `Nat`
(< 256 where it matters), SQL rows are explicit lists, Go map assignment is
`mapSet` on association lists, and a Go runtime panic is modelled by the
`none` branch of an `Option` result.
-/

namespace Chainlink

/-- The double-quote character, written via its code point. -/
def quoteChar : Char := Char.ofNat 34

/-- Model of Go `strings.Replace(s, quote, empty, n)`: remove the first `n`
occurrences of the double-quote character from `s`. -/
def goReplace2 : List Char → Nat → List Char
  | [], _ => []
  | c :: rest, k =>
    match k with
    | 0 => c :: rest
    | k' + 1 => if c = quoteChar then goReplace2 rest k' else c :: goReplace2 rest (k' + 1)

/-- Go's hex digit table `0123456789abcdef`, indexed by a nibble. -/
def hexDigitChar (n : Nat) : Char :=
  match n with
  | 0 => '0' | 1 => '1' | 2 => '2' | 3 => '3' | 4 => '4'
  | 5 => '5' | 6 => '6' | 7 => '7' | 8 => '8' | 9 => '9'
  | 10 => 'a' | 11 => 'b' | 12 => 'c' | 13 => 'd' | 14 => 'e'
  | _ => 'f'

/-- One byte encoded as two lowercase hex characters (high nibble first). -/
def hexEncodeByte (b : Nat) : List Char := [hexDigitChar (b / 16 % 16), hexDigitChar (b % 16)]

/-- Model of Go `hex.EncodeToString` over a byte slice. -/
def hexEncode : List Nat → List Char
  | [] => []
  | b :: bs => hexEncodeByte b ++ hexEncode bs

/-- Value of one hex character; `none` for a non-hex character, as in Go's
`encoding/hex` (which accepts both cases). -/
def hexDigitVal (c : Char) : Option Nat :=
  if '0' ≤ c ∧ c ≤ '9' then some (c.toNat - 48)
  else if 'a' ≤ c ∧ c ≤ 'f' then some (c.toNat - 87)
  else if 'A' ≤ c ∧ c ≤ 'F' then some (c.toNat - 55)
  else none

/-- Model of Go `hex.DecodeString`: fails on odd length or a bad character. -/
def hexDecode : List Char → Option (List Nat)
  | [] => some []
  | [_] => none
  | c1 :: c2 :: rest =>
    match hexDigitVal c1, hexDigitVal c2, hexDecode rest with
    | some h, some l, some bs => some ((16 * h + l) :: bs)
    | _, _, _ => none

/-- Model of Go `copy(dst, src)`: the result of overwriting the first
`min (dst.length) (src.length)` entries of `dst` with those of `src`. -/
def goCopy (dst src : List Nat) : List Nat :=
  src.take dst.length ++ dst.drop (min dst.length src.length)

/-- `var reqID [32]byte; copy(reqID, b)` — the V1 map key built from a
decoded payload. -/
def newReqID (b : List Nat) : List Nat := goCopy (List.replicate 32 0) b

/-- `new(big.Int).SetBytes(b)`: the big-endian unsigned integer of a byte
slice. -/
def beBytesToNat (bs : List Nat) : Nat := bs.foldl (fun acc b => acc * 256 + b) 0

/-- Go map assignment `m[k] = v` on an association-list model of a map:
overwrite the entry if the key is present, otherwise append it. -/
def mapSet {α : Type} [DecidableEq α] (m : List (α × Nat)) (k : α) (v : Nat) : List (α × Nat) :=
  match m with
  | [] => [(k, v)]
  | (k', v') :: rest => if k' = k then (k, v) :: rest else (k', v') :: mapSet rest k v

/-- Go map lookup on the association-list model. -/
def mapGet {α : Type} [DecidableEq α] (m : List (α × Nat)) (k : α) : Option Nat :=
  match m with
  | [] => none
  | (k', v') :: rest => if k' = k then some v' else mapGet rest k

/-- One row produced by `getRespCounts`: the raw (JSON-rendered, quoted)
request-identifier string and its count. -/
structure RespRow where
  requestID : List Char
  count : Nat
deriving DecidableEq

/-- Outcome of decoding one row's identifier payload: `crash` models the Go
runtime panic of `req[2:]` on a too-short string, `skip` models `continue`
after a hex-decode error, `key` carries the decoded bytes. -/
inductive RowStep (α : Type) where
  | crash
  | skip
  | key (k : α)
deriving DecidableEq

/-- The per-row decode step shared by V1 and V2: strip the first two quote
characters, take the payload after the two-character `0x` marker (Go
`req[2:]`, which panics when fewer than two characters remain), hex-decode. -/
def decodeRowPayload (rid : List Char) : RowStep (List Nat) :=
  if (goReplace2 rid 2).length < 2 then RowStep.crash
  else
    match hexDecode ((goReplace2 rid 2).drop 2) with
    | none => RowStep.skip
    | some b => RowStep.key b

/-- The V1 row loop of `GetStartingResponseCountsV1`: build the 32-byte
key and assign the count; `none` models a panic aborting the whole call. -/
def processRowsV1 : List RespRow → List (List Nat × Nat) → Option (List (List Nat × Nat))
  | [], m => some m
  | r :: rest, m =>
    match decodeRowPayload r.requestID with
    | RowStep.crash => none
    | RowStep.skip => processRowsV1 rest m
    | RowStep.key b => processRowsV1 rest (mapSet m (newReqID b) r.count)

/-- The V2 row loop of `GetStartingResponseCountsV2`: the key is the decimal
string of the big-endian integer of the payload. -/
def processRowsV2 : List RespRow → List (String × Nat) → Option (List (String × Nat))
  | [], m => some m
  | r :: rest, m =>
    match decodeRowPayload r.requestID with
    | RowStep.crash => none
    | RowStep.skip => processRowsV2 rest m
    | RowStep.key b => processRowsV2 rest (mapSet m (Nat.repr (beBytesToNat b)) r.count)

/-- Transaction lifecycle states appearing in the queries. -/
inductive TxState where
  | unstarted
  | inProgress
  | unconfirmed
  | confirmed
  | fatalError
deriving DecidableEq

/-- A row of `eth_txes`: id, state, the JSON-rendered `meta` field
`RequestID` (`none` for SQL NULL), and the chain id column (present in the
table but never filtered on by these queries). -/
structure EthTx where
  id : Nat
  state : TxState
  metaRequestID : Option (List Char)
  evmChainID : Nat
deriving DecidableEq

/-- A row of `eth_tx_attempts`. -/
structure EthTxAttempt where
  ethTxID : Nat
  hash : Nat
deriving DecidableEq

/-- A row of `eth_receipts`. -/
structure EthReceipt where
  txHash : Nat
  blockNumber : Int
deriving DecidableEq

/-- A row of `evm_heads`. -/
structure EvmHead where
  evmChainID : Nat
  number : Int
deriving DecidableEq

/-- The relational store the two sub-queries read. -/
structure Store where
  ethTxes : List EthTx
  ethTxAttempts : List EthTxAttempt
  ethReceipts : List EthReceipt
  evmHeads : List EvmHead

/-- `et.state IN ('unconfirmed', 'unstarted', 'in_progress')`. -/
def isInflightState (s : TxState) : Bool :=
  match s with
  | TxState.unconfirmed => true
  | TxState.unstarted => true
  | TxState.inProgress => true
  | _ => false

/-- The in-flight sub-query's pre-grouping rows: every transaction with a
non-null `RequestID` tag in an in-flight state, with no height filter and no
chain filter. -/
def inflightKeys (st : Store) : List (List Char) :=
  st.ethTxes.filterMap (fun t => if isInflightState t.state then t.metaRequestID else none)

/-- `SELECT number FROM evm_heads WHERE evm_chain_id = $1 ORDER BY number
DESC LIMIT 1`: the greatest head number recorded for the chain. -/
def latestHead (st : Store) (chainID : Nat) : Option Int :=
  ((st.evmHeads.filter (fun h => decide (h.evmChainID = chainID))).map (fun h => h.number)).max?

/-- The join `eth_txes ⋈ eth_tx_attempts ⋈ eth_receipts` restricted to
non-null tags and receipts at block number ≥ `cutoff`, emitting one key per
joined row. -/
def joinKeys (txes : List EthTx) (atts : List EthTxAttempt) (rcpts : List EthReceipt)
    (cutoff : Int) : List (List Char) :=
  match txes with
  | [] => []
  | t :: rest =>
    (match t.metaRequestID with
     | none => []
     | some rid =>
       (atts.filter (fun a => decide (a.ethTxID = t.id))).foldr
         (fun a acc =>
           ((rcpts.filter (fun r =>
               decide (r.txHash = a.hash) && decide (cutoff ≤ r.blockNumber))).map
             (fun _ => rid)) ++ acc)
         [])
    ++ joinKeys rest atts rcpts cutoff

/-- The confirmed sub-query's pre-grouping rows: when the head sub-select
returns NULL the `>=` comparison is never true, so no row qualifies. -/
def confirmedJoinKeys (st : Store) (chainID : Nat) (depth : Nat) : List (List Char) :=
  match latestHead st chainID with
  | none => []
  | some h => joinKeys st.ethTxes st.ethTxAttempts st.ethReceipts (h - (depth : Int))

/-- `GROUP BY meta->'RequestID'` with `count(...)`, groups listed in order
of first occurrence. -/
def groupCounts (keys : List (List Char)) : List RespRow :=
  keys.foldl
    (fun acc k =>
      if acc.any (fun r => decide (r.requestID = k)) then
        acc.map (fun r => if r.requestID = k then { r with count := r.count + 1 } else r)
      else acc ++ [⟨k, 1⟩])
    []

/-- `getRespCounts`: the UNION ALL of the in-flight and confirmed grouped
sub-queries, in query order, or the store error. -/
def getRespCounts (db : Except Unit Store) (chainID : Nat) (depth : Nat) :
    Except Unit (List RespRow) :=
  match db with
  | Except.error e => Except.error e
  | Except.ok st =>
    Except.ok (groupCounts (inflightKeys st) ++ groupCounts (confirmedJoinKeys st chainID depth))

/-- `GetStartingResponseCountsV1`: on a query error, log and return the empty
map; otherwise run the V1 row loop (whose `none` models a panic). -/
def GetStartingResponseCountsV1 (db : Except Unit Store) (chainID : Nat) (depth : Nat) :
    Option (List (List Nat × Nat)) :=
  match getRespCounts db chainID depth with
  | Except.error _ => some []
  | Except.ok rows => processRowsV1 rows []

/-- `GetStartingResponseCountsV2`: as V1 but with decimal big-integer keys. -/
def GetStartingResponseCountsV2 (db : Except Unit Store) (chainID : Nat) (depth : Nat) :
    Option (List (String × Nat)) :=
  match getRespCounts db chainID depth with
  | Except.error _ => some []
  | Except.ok rows => processRowsV2 rows []

/-- Kinds of pipeline tasks the delegate's loop distinguishes:
`pipeline.VRFTaskV2`, `pipeline.VRFTask`, anything else. -/
inductive Task where
  | vrfV2
  | vrfV1
  | other
deriving DecidableEq

/-- The fields of `job.Job` the delegate reads: presence of a `VRFSpec` and a
`PipelineSpec` whose `Pipeline()` call may itself fail. -/
structure Job where
  vrfSpec : Option Unit
  pipelineSpec : Option (Except String (List Task))

/-- The collaborators `ServicesForSpec` consults, each modelled by the
outcome of the corresponding call, plus the resolved chain's id and
configured finality depth. -/
structure Env where
  chainGet : Except String Unit
  coordV1 : Except String Unit
  coordV2 : Except String Unit
  linkEthFeed : Except String Unit
  aggregator : Except String Unit
  db : Except Unit Store
  chainID : Nat
  finalityDepth : Nat

/-- A constructed listener, carrying the starting-count map it was seeded
with. -/
inductive Listener where
  | v1 (respCount : List (List Nat × Nat))
  | v2 (respCount : List (String × Nat))
deriving DecidableEq

/-- The distinct error exits of `ServicesForSpec`. -/
inductive SfsError where
  | invalidSpec
  | pipelineErr (e : String)
  | chainErr (e : String)
  | coordV1Err (e : String)
  | coordV2Err (e : String)
  | linkEthFeedErr (e : String)
  | aggregatorErr (e : String)
  | noVRFTask
deriving DecidableEq

/-- The `for _, task := range pl.Tasks` loop: for each task, first check for
a V2 task and return a V2 listener, then check for a V1 task and return a V1
listener; after the loop, fail with the no-VRF-task error.  The outer
`Option` is `none` when seeding the counts panics. -/
def resolveLoop (env : Env) : List Task → Option (Except SfsError (List Listener))
  | [] => some (Except.error SfsError.noVRFTask)
  | t :: rest =>
    match t with
    | Task.vrfV2 =>
      match env.linkEthFeed with
      | Except.error e => some (Except.error (SfsError.linkEthFeedErr e))
      | Except.ok _ =>
        match env.aggregator with
        | Except.error e => some (Except.error (SfsError.aggregatorErr e))
        | Except.ok _ =>
          match GetStartingResponseCountsV2 env.db env.chainID env.finalityDepth with
          | none => none
          | some m => some (Except.ok [Listener.v2 m])
    | Task.vrfV1 =>
      match GetStartingResponseCountsV1 env.db env.chainID env.finalityDepth with
      | none => none
      | some m => some (Except.ok [Listener.v1 m])
    | Task.other => resolveLoop env rest

/-- `ServicesForSpec`: nil-spec check, pipeline compilation, chain lookup,
the two coordinator bindings, then the task-scanning loop. -/
def ServicesForSpec (env : Env) (jb : Job) : Option (Except SfsError (List Listener)) :=
  match jb.vrfSpec, jb.pipelineSpec with
  | none, _ => some (Except.error SfsError.invalidSpec)
  | some _, none => some (Except.error SfsError.invalidSpec)
  | some _, some ps =>
    match ps with
    | Except.error e => some (Except.error (SfsError.pipelineErr e))
    | Except.ok tasks =>
      match env.chainGet with
      | Except.error e => some (Except.error (SfsError.chainErr e))
      | Except.ok _ =>
        match env.coordV1 with
        | Except.error e => some (Except.error (SfsError.coordV1Err e))
        | Except.ok _ =>
          match env.coordV2 with
          | Except.error e => some (Except.error (SfsError.coordV2Err e))
          | Except.ok _ => resolveLoop env tasks

/-- The first task of the pipeline that is a VRF task of either version. -/
def firstVRFTask : List Task → Option Task
  | [] => none
  | t :: rest => if t = Task.vrfV2 ∨ t = Task.vrfV1 then some t else firstVRFTask rest

/-- The Plain Service shape: four operations, each modelled by its result. -/
structure Service where
  start : Except String Unit
  close : Except String Unit
  ready : Except String Unit
  healthy : Except String Unit

/-- A cancellation token: all the adapter could observe of a context. -/
structure Ctx where
  cancelled : Bool

/-- The Context-aware Service shape: `Start` takes the token. -/
structure ServiceCtx where
  startCtx : Ctx → Except String Unit
  close : Except String Unit
  ready : Except String Unit
  healthy : Except String Unit

/-- `NewServiceCtx` wrapping the `adapter` struct: every operation forwards
to the underlying service, and `Start` drops its context argument. -/
def NewServiceCtx (s : Service) : ServiceCtx :=
  { startCtx := fun _ => s.start
    close := s.close
    ready := s.ready
    healthy := s.healthy }

/-- `0x`-prefixed lowercase hex rendering of an identifier, as the node
writes it into `meta->'RequestID'`. -/
def encodeReqID (b : List Nat) : List Char := '0' :: 'x' :: hexEncode b

/-- The JSON quoting the store adds around a string value. -/
def quoteWrap (s : List Char) : List Char := quoteChar :: s ++ [quoteChar]

/-- The store string for identifier `0xaa`. -/
def qA : List Char := quoteChar :: '0' :: 'x' :: 'a' :: 'a' :: [quoteChar]

/-- The store string for identifier `0xbb`. -/
def qB : List Char := quoteChar :: '0' :: 'x' :: 'b' :: 'b' :: [quoteChar]

/-- The store string for identifier `0xcc`. -/
def qC : List Char := quoteChar :: '0' :: 'x' :: 'c' :: 'c' :: [quoteChar]

/-- A store with in-flight rows {0xaa: 2, 0xbb: 1} and confirmed rows
{0xaa: 1, 0xcc: 3}, all confirmed receipts at block 100 with head 100, so
every row is inside a finality window of depth 10. -/
def c1Store : Store :=
  { ethTxes := [⟨1, TxState.unconfirmed, some qA, 1⟩, ⟨2, TxState.inProgress, some qA, 1⟩,
                ⟨3, TxState.unstarted, some qB, 1⟩,
                ⟨4, TxState.confirmed, some qA, 1⟩, ⟨5, TxState.confirmed, some qC, 1⟩,
                ⟨6, TxState.confirmed, some qC, 1⟩, ⟨7, TxState.confirmed, some qC, 1⟩]
    ethTxAttempts := [⟨4, 104⟩, ⟨5, 105⟩, ⟨6, 106⟩, ⟨7, 107⟩]
    ethReceipts := [⟨104, 100⟩, ⟨105, 100⟩, ⟨106, 100⟩, ⟨107, 100⟩]
    evmHeads := [⟨1, 100⟩] }

/-- A store holding one tagged in-flight row whose `RequestID` JSON value is
the empty string, rendered by the store as just the two quote characters. -/
def badStore : Store :=
  { ethTxes := [⟨1, TxState.unconfirmed, some [quoteChar, quoteChar], 1⟩]
    ethTxAttempts := []
    ethReceipts := []
    evmHeads := [] }

/-- The empty store: every query on it returns no rows. -/
def emptyStore : Store := ⟨[], [], [], []⟩

/-- An environment in which every collaborator call succeeds and the store
is empty. -/
def env0 : Env :=
  ⟨Except.ok (), Except.ok (), Except.ok (), Except.ok (), Except.ok (),
   Except.ok emptyStore, 1, 50⟩

/-- A job whose compiled pipeline holds a V1 task followed by a V2 task. -/
def jb0 : Job := ⟨some (), some (Except.ok [Task.vrfV1, Task.vrfV2])⟩

/-- A job whose compiled pipeline holds a filler task and then a V2 task. -/
def jbW : Job := ⟨some (), some (Except.ok [Task.other, Task.vrfV2])⟩

/-- A job with no VRF spec at all. -/
def jbBad : Job := ⟨none, some (Except.ok [Task.vrfV1])⟩

/-- A store for the finality-boundary experiment: one tagged transaction
with a single attempt whose receipt sits at block `b`, one tagged in-flight
transaction, and a single head at height `H` for chain `cid`. -/
def c6Store (cid : Nat) (H b : Int) (rid ridB : List Char) : Store :=
  { ethTxes := [⟨1, TxState.confirmed, some rid, cid⟩, ⟨2, TxState.unconfirmed, some ridB, cid⟩]
    ethTxAttempts := [⟨1, 11⟩]
    ethReceipts := [⟨11, b⟩]
    evmHeads := [⟨cid, H⟩] }

/-- A store for the chain-filter experiment: a tagged in-flight transaction
on chain `txc1`, a tagged confirmed transaction on chain `txc2` (receipt at
block `b`), and one head at height `H` recorded for chain `hc`. -/
def c10Store (txc1 txc2 hc : Nat) (H b : Int) (rid rid2 : List Char) : Store :=
  { ethTxes := [⟨1, TxState.unconfirmed, some rid, txc1⟩, ⟨2, TxState.confirmed, some rid2, txc2⟩]
    ethTxAttempts := [⟨2, 21⟩]
    ethReceipts := [⟨21, b⟩]
    evmHeads := [⟨hc, H⟩] }

/-! Helper lemmas about the decode pipeline. -/

theorem hexDigitVal_hexDigitChar (n : Nat) (h : n < 16) :
    hexDigitVal (hexDigitChar n) = some n := by
  interval_cases n <;> decide

theorem hexDigitChar_ne_quote (n : Nat) : hexDigitChar n ≠ quoteChar := by
  unfold hexDigitChar
  split <;> decide

theorem hexDecode_hexEncode (bs : List Nat) (h : ∀ x ∈ bs, x < 256) :
    hexDecode (hexEncode bs) = some bs := by
  induction bs with
  | nil => rfl
  | cons b rest ih =>
    have hb : b < 256 := h b (List.mem_cons_self b rest)
    have hrest : ∀ x ∈ rest, x < 256 := fun x hx => h x (List.mem_cons_of_mem _ hx)
    have h1 : b / 16 % 16 < 16 := Nat.mod_lt _ (by omega)
    have h2 : b % 16 < 16 := Nat.mod_lt _ (by omega)
    simp [hexEncode, hexEncodeByte, hexDecode,
      hexDigitVal_hexDigitChar _ h1, hexDigitVal_hexDigitChar _ h2, ih hrest]
    omega

theorem quote_not_mem_hexEncode (bs : List Nat) : quoteChar ∉ hexEncode bs := by
  induction bs with
  | nil => simp [hexEncode]
  | cons b rest ih =>
    have n1 := hexDigitChar_ne_quote (b / 16 % 16)
    have n2 := hexDigitChar_ne_quote (b % 16)
    simp [hexEncode, hexEncodeByte, ih, Ne.symm n1, Ne.symm n2]

theorem goReplace2_one (s : List Char) (h : quoteChar ∉ s) :
    goReplace2 (s ++ [quoteChar]) 1 = s := by
  induction s with
  | nil => simp [goReplace2]
  | cons c rest ih =>
    have hc : c ≠ quoteChar := fun e => h (e ▸ List.mem_cons_self c rest)
    have hrest : quoteChar ∉ rest := fun hm => h (List.mem_cons_of_mem _ hm)
    simp [goReplace2, hc, ih hrest]

theorem goReplace2_two (s : List Char) (h : quoteChar ∉ s) :
    goReplace2 (quoteChar :: s ++ [quoteChar]) 2 = s := by
  simp [goReplace2, goReplace2_one s h]

theorem newReqID_spec (b : List Nat) :
    newReqID b = b.take 32 ++ List.replicate (32 - b.length) 0 := by
  unfold newReqID goCopy
  simp only [List.length_replicate, List.drop_replicate]
  congr 2
  omega

theorem newReqID_of_length_32 (b : List Nat) (h32 : b.length = 32) : newReqID b = b := by
  rw [newReqID_spec, h32, Nat.sub_self, List.replicate_zero, List.append_nil,
    List.take_of_length_le (by omega)]

/-! Helper lemmas about the delegate's task-scanning loop. -/

theorem resolveLoop_firstVRF (env : Env) (tasks : List Task)
    (m1 : List (List Nat × Nat)) (m2 : List (String × Nat))
    (hf : env.linkEthFeed = Except.ok ()) (ha : env.aggregator = Except.ok ())
    (hm1 : GetStartingResponseCountsV1 env.db env.chainID env.finalityDepth = some m1)
    (hm2 : GetStartingResponseCountsV2 env.db env.chainID env.finalityDepth = some m2) :
    (firstVRFTask tasks = some Task.vrfV2 →
      resolveLoop env tasks = some (Except.ok [Listener.v2 m2]))
  ∧ (firstVRFTask tasks = some Task.vrfV1 →
      resolveLoop env tasks = some (Except.ok [Listener.v1 m1]))
  ∧ (firstVRFTask tasks = none →
      resolveLoop env tasks = some (Except.error SfsError.noVRFTask)) := by
  induction tasks with
  | nil =>
    refine ⟨?_, ?_, ?_⟩ <;> intro h
    · simp [firstVRFTask] at h
    · simp [firstVRFTask] at h
    · rfl
  | cons t rest ih =>
    cases t with
    | vrfV2 =>
      refine ⟨?_, ?_, ?_⟩ <;> intro h
      · simp [resolveLoop, hf, ha, hm2]
      · simp [firstVRFTask] at h
      · simp [firstVRFTask] at h
    | vrfV1 =>
      refine ⟨?_, ?_, ?_⟩ <;> intro h
      · simp [firstVRFTask] at h
      · simp [resolveLoop, hm1]
      · simp [firstVRFTask] at h
    | other =>
      refine ⟨?_, ?_, ?_⟩ <;> intro h <;>
        simp only [firstVRFTask] at h <;>
        simp only [resolveLoop] <;>
        first
        | exact ih.1 (by simpa using h)
        | exact ih.2.1 (by simpa using h)
        | exact ih.2.2 (by simpa using h)

theorem resolveLoop_ok_singleton (env : Env) (tasks : List Task) (ls : List Listener)
    (h : resolveLoop env tasks = some (Except.ok ls)) : ls.length = 1 := by
  induction tasks with
  | nil => simp [resolveLoop] at h
  | cons t rest ih =>
    cases t with
    | vrfV2 =>
      cases hfe : env.linkEthFeed with
      | error e => rw [resolveLoop, hfe] at h; simp at h
      | ok u =>
        cases hag : env.aggregator with
        | error e => rw [resolveLoop, hfe, hag] at h; simp at h
        | ok u2 =>
          cases hg : GetStartingResponseCountsV2 env.db env.chainID env.finalityDepth with
          | none => rw [resolveLoop, hfe, hag, hg] at h; simp at h
          | some m =>
            rw [resolveLoop, hfe, hag, hg] at h
            simp at h
            subst h
            rfl
    | vrfV1 =>
      cases hg : GetStartingResponseCountsV1 env.db env.chainID env.finalityDepth with
      | none => rw [resolveLoop, hg] at h; simp at h
      | some m =>
        rw [resolveLoop, hg] at h
        simp at h
        subst h
        rfl
    | other =>
      rw [resolveLoop] at h
      exact ih h

/-! Claim theorems. -/

/-- C1: evaluation of the code at the spec's own example.  With in-flight
rows {0xaa: 2, 0xbb: 1} and confirmed rows {0xaa: 1, 0xcc: 3} all within the
finality window, `GetStartingResponseCountsV1`/`V2` map the shared
identifier 0xaa to 1 — the count of the later (confirmed) row overwrites the
in-flight count instead of being summed with it, so the result is not the
claimed {0xaa: 3, 0xbb: 1, 0xcc: 3}. -/
theorem c1_overwrite_eval :
    GetStartingResponseCountsV1 (Except.ok c1Store) 1 10 =
      some [(170 :: List.replicate 31 0, 1), (187 :: List.replicate 31 0, 1),
            (204 :: List.replicate 31 0, 3)]
  ∧ GetStartingResponseCountsV2 (Except.ok c1Store) 1 10 =
      some [("170", 1), ("187", 1), ("204", 3)]
  ∧ GetStartingResponseCountsV2 (Except.ok c1Store) 1 10 ≠
      some [("170", 3), ("187", 1), ("204", 3)] := by
  exact ⟨rfl, rfl, by decide⟩

/-- C2: evaluation of the code at a failing row.  A store row whose
`RequestID` JSON value is the empty string (two quote characters, nothing
left after quote removal) makes `GetStartingResponseCountsV1`/`V2` abort
with a runtime panic (modelled by `none`) instead of skipping the row. -/
theorem c2_short_row_eval :
    GetStartingResponseCountsV1 (Except.ok badStore) 1 10 = none
  ∧ GetStartingResponseCountsV2 (Except.ok badStore) 1 10 = none :=
  ⟨rfl, rfl⟩

/-- C3: for any 32-byte identifier of genuine bytes, encoding it as
`0x`-prefixed lowercase hex, wrapping it in quotes as the store does, and
running it through the decode step yields the original bytes; the V1 map key
for that row is exactly those 32 bytes, and the V2 map key is the base-10
decimal string of the big-endian unsigned integer of those bytes. -/
theorem c3_roundtrip (b : List Nat) (h32 : b.length = 32) (hb : ∀ x ∈ b, x < 256) :
    decodeRowPayload (quoteWrap (encodeReqID b)) = RowStep.key b
  ∧ processRowsV1 [⟨quoteWrap (encodeReqID b), 1⟩] [] = some [(b, 1)]
  ∧ processRowsV2 [⟨quoteWrap (encodeReqID b), 1⟩] [] =
      some [(Nat.repr (beBytesToNat b), 1)] := by
  have hq : quoteChar ∉ encodeReqID b := by
    intro hm
    simp only [encodeReqID, List.mem_cons] at hm
    rcases hm with e | e | e
    · exact absurd e (by decide)
    · exact absurd e (by decide)
    · exact quote_not_mem_hexEncode b e
  have hdec : decodeRowPayload (quoteWrap (encodeReqID b)) = RowStep.key b := by
    unfold decodeRowPayload quoteWrap
    rw [goReplace2_two _ hq]
    rw [if_neg (show ¬(encodeReqID b).length < 2 by simp [encodeReqID])]
    show (match hexDecode (hexEncode b) with
          | none => RowStep.skip
          | some b' => RowStep.key b') = RowStep.key b
    rw [hexDecode_hexEncode b hb]
  refine ⟨hdec, ?_, ?_⟩
  · simp [processRowsV1, hdec, mapSet, newReqID_of_length_32 b h32]
  · simp [processRowsV2, hdec, mapSet]

/-- Witness for C3 at the 32-byte value 1: its hypotheses hold, and the V2
key for the row is the decimal string of one, matching the spec's scenario
result. -/
theorem c3_roundtrip_check :
    (List.replicate 31 0 ++ [1] : List Nat).length = 32
  ∧ processRowsV2 [⟨quoteWrap (encodeReqID (List.replicate 31 0 ++ [1])), 1⟩] [] =
      some [("1", 1)] := by
  constructor
  · decide
  · have h := (c3_roundtrip (List.replicate 31 0 ++ [1]) (by decide) (by decide)).2.2
    rw [h]
    rfl

/-- C4: when the store query fails, both `GetStartingResponseCountsV1` and
`GetStartingResponseCountsV2` return the empty mapping and no error (and no
panic) reaches the caller, whatever chain id and finality depth are
passed. -/
theorem c4_error_empty (chainID depth : Nat) :
    GetStartingResponseCountsV1 (Except.error ()) chainID depth = some []
  ∧ GetStartingResponseCountsV2 (Except.error ()) chainID depth = some [] :=
  ⟨rfl, rfl⟩

/-- C5 counterexample: a valid job whose compiled pipeline contains a V2
task — after a V1 task — resolves to a V1 listener, so the claim that a
pipeline containing a V2 task never yields a V1 listener is false as
stated. -/
theorem c5_mixed_pipeline :
    jb0.pipelineSpec = some (Except.ok [Task.vrfV1, Task.vrfV2])
  ∧ Task.vrfV2 ∈ [Task.vrfV1, Task.vrfV2]
  ∧ ServicesForSpec env0 jb0 = some (Except.ok [Listener.v1 []])
  ∧ (match ServicesForSpec env0 jb0 with
     | some (Except.ok [Listener.v2 _]) => False
     | _ => True) :=
  ⟨rfl, by decide, rfl, trivial⟩

/-- C5 as amended: for every job with a present VRF spec and a compiling
pipeline, and collaborators that succeed, the FIRST V1-or-V2 task of the
pipeline decides the version — if it is the V2 task a V2 listener seeded
with the V2-encoded counts is returned, if it is the V1 task a V1 listener
seeded with the V1-encoded counts, and if the pipeline holds neither kind
resolution fails with the no-VRF-task error; every successful call returns
exactly one listener. -/
theorem c5_first_task_decides (env : Env) (jb : Job) (tasks : List Task)
    (m1 : List (List Nat × Nat)) (m2 : List (String × Nat))
    (hs : jb.vrfSpec = some ()) (hp : jb.pipelineSpec = some (Except.ok tasks))
    (hc : env.chainGet = Except.ok ()) (h1 : env.coordV1 = Except.ok ())
    (h2 : env.coordV2 = Except.ok ())
    (hf : env.linkEthFeed = Except.ok ()) (ha : env.aggregator = Except.ok ())
    (hm1 : GetStartingResponseCountsV1 env.db env.chainID env.finalityDepth = some m1)
    (hm2 : GetStartingResponseCountsV2 env.db env.chainID env.finalityDepth = some m2) :
    (firstVRFTask tasks = some Task.vrfV2 →
      ServicesForSpec env jb = some (Except.ok [Listener.v2 m2]))
  ∧ (firstVRFTask tasks = some Task.vrfV1 →
      ServicesForSpec env jb = some (Except.ok [Listener.v1 m1]))
  ∧ (firstVRFTask tasks = none →
      ServicesForSpec env jb = some (Except.error SfsError.noVRFTask))
  ∧ (∀ ls : List Listener, ServicesForSpec env jb = some (Except.ok ls) → ls.length = 1) := by
  have hsf : ServicesForSpec env jb = resolveLoop env tasks := by
    rcases jb with ⟨vs, ps⟩
    simp only at hs hp
    subst hs
    subst hp
    simp [ServicesForSpec, hc, h1, h2]
  obtain ⟨f2, f1, f0⟩ := resolveLoop_firstVRF env tasks m1 m2 hf ha hm1 hm2
  refine ⟨?_, ?_, ?_, ?_⟩
  · intro h; rw [hsf]; exact f2 h
  · intro h; rw [hsf]; exact f1 h
  · intro h; rw [hsf]; exact f0 h
  · intro ls h; rw [hsf] at h; exact resolveLoop_ok_singleton env tasks ls h

/-- Witness for C5's amended theorem: the pipeline `[other, V2]` has the V2
task as its first VRF task, and resolution yields exactly the V2 listener
seeded with the (empty-store) V2 counts. -/
theorem c5_first_task_decides_check :
    ServicesForSpec env0 jbW = some (Except.ok [Listener.v2 []]) :=
  (c5_first_task_decides env0 jbW [Task.other, Task.vrfV2] [] []
    rfl rfl rfl rfl rfl rfl rfl rfl rfl).1 rfl

/-- C6: a confirmed row whose receipt block height is exactly the chain's
latest head height minus the finality depth is counted, one at that height
minus one is not, and the in-flight row is counted in both cases — for every
head height and depth, so no block-height filter touches the in-flight
sub-query. -/
theorem c6_finality_boundary (cid : Nat) (H : Int) (depth : Nat) (rid ridB : List Char) :
    getRespCounts (Except.ok (c6Store cid H (H - depth) rid ridB)) cid depth =
      Except.ok [⟨ridB, 1⟩, ⟨rid, 1⟩]
  ∧ getRespCounts (Except.ok (c6Store cid H (H - depth - 1) rid ridB)) cid depth =
      Except.ok [⟨ridB, 1⟩] := by
  have hin : ¬ (H - (depth : Int) ≤ H - (depth : Int) - 1) := by omega
  constructor
  · simp [getRespCounts, c6Store, inflightKeys, isInflightState, confirmedJoinKeys,
      latestHead, joinKeys, groupCounts, List.filter, List.max?]
  · simp [getRespCounts, c6Store, inflightKeys, isInflightState, confirmedJoinKeys,
      latestHead, joinKeys, groupCounts, List.filter, List.max?, hin]

/-- C7: a job missing its VRF spec or its pipeline spec makes
`ServicesForSpec` fail with the invalid-spec error for EVERY environment —
in particular no chain lookup, no contract binding and no store query can
influence the result. -/
theorem c7_invalid_spec (env : Env) (jb : Job)
    (h : jb.vrfSpec = none ∨ jb.pipelineSpec = none) :
    ServicesForSpec env jb = some (Except.error SfsError.invalidSpec) := by
  rcases jb with ⟨vs, ps⟩
  cases vs with
  | none => rfl
  | some u =>
    cases ps with
    | none => rfl
    | some p =>
      rcases h with h | h <;> simp at h

/-- Witness for C7: a concrete job with no VRF spec fails with the
invalid-spec error. -/
theorem c7_invalid_spec_check :
    ServicesForSpec env0 jbBad = some (Except.error SfsError.invalidSpec) :=
  c7_invalid_spec env0 jbBad (Or.inl rfl)

/-- C8: the adapter produced by `NewServiceCtx` forwards all four
operations unchanged and ignores the token: for every service and every
context — cancelled or not — `Start ctx` is the plain `Start`, and `Close`,
`Ready`, `Healthy` are forwarded as they are. -/
theorem c8_adapter_forwards (s : Service) (ctx : Ctx) :
    (NewServiceCtx s).startCtx ctx = s.start
  ∧ (NewServiceCtx s).close = s.close
  ∧ (NewServiceCtx s).ready = s.ready
  ∧ (NewServiceCtx s).healthy = s.healthy :=
  ⟨rfl, rfl, rfl, rfl⟩

/-- C9: for every decoded payload the V1 map key is the payload copied from
its first byte into a zeroed 32-byte array: shorter payloads are right-padded
with trailing zero bytes, longer ones are truncated to their first 32 bytes,
and the key always has length 32. -/
theorem c9_key_pad_truncate (b : List Nat) :
    newReqID b = b.take 32 ++ List.replicate (32 - b.length) 0
  ∧ (newReqID b).length = 32 := by
  refine ⟨newReqID_spec b, ?_⟩
  rw [newReqID_spec]
  simp [List.length_take, List.length_replicate]
  omega

/-- C10: the chain id passed to the query only selects which chain's head
bounds the confirmed set.  A tagged in-flight transaction and a tagged
confirmed transaction are counted whatever chain ids they carry — here both
foreign chain ids are arbitrary — while recording the head under a different
chain id than the one queried empties the confirmed sub-query but leaves the
in-flight count untouched. -/
theorem c10_chain_agnostic (cid txc1 txc2 hcid : Nat) (H : Int) (depth : Nat)
    (rid rid2 : List Char) (hne : hcid ≠ cid) :
    getRespCounts (Except.ok (c10Store txc1 txc2 cid H H rid rid2)) cid depth =
      Except.ok [⟨rid, 1⟩, ⟨rid2, 1⟩]
  ∧ getRespCounts (Except.ok (c10Store txc1 txc2 hcid H H rid rid2)) cid depth =
      Except.ok [⟨rid, 1⟩] := by
  have hwin : H - (depth : Int) ≤ H := by omega
  constructor
  · simp [getRespCounts, c10Store, inflightKeys, isInflightState, confirmedJoinKeys,
      latestHead, joinKeys, groupCounts, List.filter, List.max?, hwin]
  · simp [getRespCounts, c10Store, inflightKeys, isInflightState, confirmedJoinKeys,
      latestHead, joinKeys, groupCounts, List.filter, List.max?, hne]

/-- Witness for C10 at concrete values: chain 1 is queried while the
transactions carry chain ids 2 and 3 and the head is recorded for chain 5. -/
theorem c10_chain_agnostic_check :
    getRespCounts (Except.ok (c10Store 2 3 1 100 100 ['r'] ['s'])) 1 10 =
      Except.ok [⟨['r'], 1⟩, ⟨['s'], 1⟩]
  ∧ getRespCounts (Except.ok (c10Store 2 3 5 100 100 ['r'] ['s'])) 1 10 =
      Except.ok [⟨['r'], 1⟩] :=
  c10_chain_agnostic 1 2 3 5 100 10 ['r'] ['s'] (by decide)

end Chainlink
